import Mathlib

/-!
Shallow embedding of the Stock-Market-Analysis credit-risk core
(`classifier.py`, `calculators.py`, `decisions.py`, `zscore_fetcher.py`,
`risk_analyzer.py`) and proofs of the specification claims.

Numeric modelling: Python floats are modelled as exact rationals (`ℚ`)
for the Z-Score / classification / decision pipeline, and as reals (`ℝ`)
for the Merton model, whose arithmetic is transcendental (`log`, `sqrt`,
`erf`).  Python's `round(x, n)` is modelled as round-to-nearest with
`n` decimal digits (the tie-breaking rule is irrelevant to every claim).
Python exceptions are modelled with `Except String`.  Strings that only
feed console output (the `reasoning` field of a decision, log lines) are
outside the analytical core and are not modelled.
-/

namespace StockMarket

/-! ## String helpers: Python `kw in s` substring test on lowered text -/

/-- `strStarts n h` : the char list `n` is an initial segment of `h`
(Python `h.startswith(n)`). -/
def strStarts : List Char → List Char → Bool
  | [], _ => true
  | _ :: _, [] => false
  | c :: cs, d :: ds => c == d && strStarts cs ds

/-- `strHasSub n h` : the char list `n` occurs contiguously inside `h`
(Python `n in h`). -/
def strHasSub (needle : List Char) : List Char → Bool
  | [] => needle.isEmpty
  | d :: ds => strStarts needle (d :: ds) || strHasSub needle ds

/-- Python `s.lower()` on the ASCII text the classifier deals with. -/
def pyLower (s : List Char) : List Char := s.map Char.toLower

/-! ## classifier.py -/

/-- `CompanyClassifier.MANUFACTURING_KEYWORDS`. -/
def MANUFACTURING_KEYWORDS : List String :=
  ["manufactur", "auto", "aerospace", "defense", "steel", "chemical",
   "semiconductor", "electronic", "machinery", "equipment", "textile",
   "paper", "packaging", "rubber", "plastic", "metal", "mining",
   "oil", "gas", "energy", "pharmaceutical", "drug", "food", "beverage",
   "tobacco", "furniture", "appliance", "vehicle", "aircraft", "ship"]

/-- `CompanyClassifier.FINANCIAL_KEYWORDS`. -/
def FINANCIAL_KEYWORDS : List String :=
  ["bank", "insurance", "financial", "asset management", "investment",
   "credit", "mortgage", "reit", "fund", "brokerage", "capital markets"]

/-- `any(kw in self.industry for kw in kws)` where `self.industry` is the
lowered industry text. -/
def containsKw (kws : List String) (ind : List Char) : Bool :=
  kws.any fun kw => strHasSub kw.toList ind

structure Classification where
  company_type : String
  model_version : String
deriving DecidableEq

/-- `CompanyClassifier.classify`, working on the lowered industry text
exactly as the constructor's `(industry or "").lower()` produces it. -/
def classifyChars (industry : List Char) : Classification :=
  let ind := pyLower industry
  if ind.isEmpty then ⟨"non_manufacturing", "Z_double_prime"⟩
  else if containsKw FINANCIAL_KEYWORDS ind then ⟨"financial", "Z_double_prime"⟩
  else if containsKw MANUFACTURING_KEYWORDS ind then ⟨"manufacturing", "Z"⟩
  else ⟨"non_manufacturing", "Z_double_prime"⟩

/-- `CompanyClassifier` entry point on a `String` industry descriptor. -/
def classify (industry : String) : Classification :=
  classifyChars industry.toList

/-- `CompanyClassifier.get_merton_applicability`. -/
def get_merton_applicability (total_liabilities : ℚ) : Bool :=
  if total_liabilities ≤ 0 then false else true

/-! ## decisions.py -/

/-- `BaseCreditDecision` constants. -/
def APPROVED : String := "APPROVED"

def APPROVED_WARNING : String := "APPROVED WITH WARNING"

def DENIED : String := "DENIED"

def ZONE_SAFE : String := "SAFE"

def ZONE_GREY : String := "GREY ZONE"

def ZONE_DISTRESS : String := "DISTRESS"

/-- The `{zone, decision}` part of a `BaseCreditDecision` summary (the
`reasoning` display string is not modelled). -/
structure ZoneDecision where
  zone : String
  decision : String
deriving DecidableEq

/-- `ZScoreDecision.THRESHOLDS.get(model_version, THRESHOLDS["Z_double_prime"])`:
`(safe, distress)` thresholds with the dictionary's `Z_double_prime`
fallback for unknown variants. -/
def zscoreThresholds (model_version : String) : ℚ × ℚ :=
  if model_version = "Z" then (2.99, 1.81)
  else if model_version = "Z_double_prime" then (2.60, 1.10)
  else (2.60, 1.10)

/-- `ZScoreDecision.evaluate`. -/
def zscoreEvaluate (z_score : ℚ) (model_version : String) : ZoneDecision :=
  let t := zscoreThresholds model_version
  if z_score > t.1 then ⟨ZONE_SAFE, APPROVED⟩
  else if z_score < t.2 then ⟨ZONE_DISTRESS, DENIED⟩
  else ⟨ZONE_GREY, APPROVED_WARNING⟩

/-- `MertonDecision.PD_SAFE`. -/
def PD_SAFE : ℝ := 0.02

/-- `MertonDecision.PD_DISTRESS`. -/
def PD_DISTRESS : ℝ := 0.05

/-- `MertonDecision.evaluate` (the `DD` argument only feeds the display
string in the source). -/
noncomputable def mertonEvaluate (PD : ℝ) : ZoneDecision :=
  if PD < PD_SAFE then ⟨ZONE_SAFE, APPROVED⟩
  else if PD > PD_DISTRESS then ⟨ZONE_DISTRESS, DENIED⟩
  else ⟨ZONE_GREY, APPROVED_WARNING⟩

/-! ## risk_analyzer.py — `_combine_decisions` (Reconciler) -/

structure FinalDecision where
  decision : String
  basis : String
deriving DecidableEq

/-- `RiskAnalyzer._combine_decisions`.  The Python set logic
`"DENIED" in {z, m}` is both-sided equality, and `{z, m} == {"APPROVED"}`
says both members are `"APPROVED"`. -/
def combine_decisions (z_dec : ZoneDecision) (merton_dec : Option ZoneDecision) :
    FinalDecision :=
  match merton_dec with
  | none => ⟨z_dec.decision, "Z-Score únicamente (Merton no aplicable)"⟩
  | some m =>
      let final :=
        if z_dec.decision = DENIED ∨ m.decision = DENIED then DENIED
        else if z_dec.decision = APPROVED ∧ m.decision = APPROVED then APPROVED
        else APPROVED_WARNING
      ⟨final, "Z-Score: " ++ z_dec.decision ++ " | Merton: " ++ m.decision⟩

/-! ## calculators.py — ZScoreCalculator -/

/-- Python `round(x, n)` on the exact-rational model of floats:
round-to-nearest with `n` decimal digits. -/
def pyRound (ndigits : ℕ) (x : ℚ) : ℚ :=
  (round (x * 10 ^ ndigits) : ℤ) / 10 ^ ndigits

/-- The `FinancialFacts` record handed to `ZScoreCalculator` (field order
follows the dict built by `ZScoreDataFetcher.fetch_all`). -/
structure FinancialFacts where
  working_capital : ℚ
  total_assets : ℚ
  retained_earnings : ℚ
  ebit : ℚ
  market_cap : ℚ
  total_liabilities : ℚ
  sales : ℚ
deriving DecidableEq

structure Coefficients where
  x1 : ℚ
  x2 : ℚ
  x3 : ℚ
  x4 : ℚ
  x5 : ℚ
deriving DecidableEq

/-- `ZScoreCalculator.COEFFICIENTS` as a keyed lookup (`none` for a key
outside the dict). -/
def COEFFICIENTS (model_version : String) : Option Coefficients :=
  if model_version = "Z" then some ⟨1.2, 1.4, 3.3, 0.6, 1.0⟩
  else if model_version = "Z_double_prime" then some ⟨6.56, 3.26, 6.72, 1.05, 0.0⟩
  else none

/-- `ZScoreCalculator.__init__`: the construction-time validation of the
model variant (`ValueError` for a key outside `COEFFICIENTS`). -/
def ZScoreCalculator.init (model_version : String) : Except String Coefficients :=
  match COEFFICIENTS model_version with
  | none => .error ("Versión inválida: '" ++ model_version ++ "'.")
  | some c => .ok c

structure ZScoreResult where
  model_version : String
  x1 : ℚ
  x2 : ℚ
  x3 : ℚ
  x4 : ℚ
  x5 : ℚ
  z_score : ℚ
deriving DecidableEq

/-- Body of `ZScoreCalculator.calculate`, given the coefficients the
constructor validated and stored. -/
def ZScoreCalculator.calcBody (data : FinancialFacts) (model_version : String)
    (c : Coefficients) : Except String ZScoreResult :=
  let ta := data.total_assets
  let tl := data.total_liabilities
  if ta = 0 then .error "Total Assets es 0."
  else if tl = 0 then .error "Total Liabilities es 0."
  else
    let x1 := data.working_capital / ta
    let x2 := data.retained_earnings / ta
    let x3 := data.ebit / ta
    let x4 := data.market_cap / tl
    let x5 := if model_version = "Z" then data.sales / ta else 0
    let z := c.x1 * x1 + c.x2 * x2 + c.x3 * x3 + c.x4 * x4 + c.x5 * x5
    .ok ⟨model_version, pyRound 4 x1, pyRound 4 x2, pyRound 4 x3,
         pyRound 4 x4, pyRound 4 x5, pyRound 4 z⟩

/-- `ZScoreCalculator(data, model_version).calculate()`: construction-time
variant validation followed by the calculation. -/
def zscoreCalculate (data : FinancialFacts) (model_version : String) :
    Except String ZScoreResult :=
  match ZScoreCalculator.init model_version with
  | .error e => .error e
  | .ok c => ZScoreCalculator.calcBody data model_version c

/-! ## zscore_fetcher.py -/

/-- `ZScoreDataFetcher.REQUIRED_FIELDS`. -/
def REQUIRED_FIELDS : List String :=
  ["total_assets", "ebit", "market_cap", "total_liabilities", "sales"]

/-- `BaseDataFetcher._validate_data`: Python `data.get(f) is None` is
`none` either because the key is absent or because its value is `None`. -/
def validateData (data : List (String × Option ℚ)) (required : List String) :
    Except String Unit :=
  let missing := required.filter fun f => ((data.lookup f).join).isNone
  if missing.isEmpty then .ok ()
  else .error ("Campos faltantes: " ++ String.intercalate ", " missing)

/-- `ZScoreDataFetcher._fetch_balance_sheet` on the latest balance-sheet
column, modelled as an association list from row label to value; a label
absent from `latest.index` is an absent key.  Returns
`(total_assets, total_liabilities, working_capital, retained_earnings)`;
Python's `KeyError` on a missing mandatory row is an error. -/
def fetchBalanceSheet (bs : List (String × ℚ)) :
    Except String (ℚ × ℚ × ℚ × ℚ) :=
  if bs.isEmpty then .error "No se encontró balance sheet."
  else
    match bs.lookup "Total Assets" with
    | none => .error "KeyError: Total Assets"
    | some ta =>
      match bs.lookup "Total Liabilities Net Minority Interest" with
      | none => .error "KeyError: Total Liabilities Net Minority Interest"
      | some tl =>
        let wc :=
          match bs.lookup "Working Capital" with
          | some w => w
          | none =>
            match bs.lookup "Current Assets", bs.lookup "Current Liabilities" with
            | some ca, some cl => ca - cl
            | _, _ => 0
        let re :=
          match bs.lookup "Retained Earnings" with
          | some r => r
          | none => 0
        .ok (ta, tl, wc, re)

/-- `ZScoreDataFetcher._fetch_income_statement`: `(ebit, sales)` with the
EBIT → Operating Income → Pretax Income and Total Revenue → Operating
Revenue fallback chains. -/
def fetchIncomeStatement (inc : List (String × ℚ)) : Except String (ℚ × ℚ) :=
  if inc.isEmpty then .error "No se encontró income statement."
  else
    let ebitOpt :=
      match inc.lookup "EBIT" with
      | some e => some e
      | none =>
        match inc.lookup "Operating Income" with
        | some o => some o
        | none => inc.lookup "Pretax Income"
    match ebitOpt with
    | none => .error "No se encontró EBIT ni alternativa válida."
    | some ebit =>
      let salesOpt :=
        match inc.lookup "Total Revenue" with
        | some r => some r
        | none => inc.lookup "Operating Revenue"
      match salesOpt with
      | none => .error "No se encontró Total Revenue."
      | some sales => .ok (ebit, sales)

/-- `ZScoreDataFetcher._fetch_market_data`: `float(info.get("marketCap"))`
raises on an absent market cap. -/
def fetchMarketData (marketCap : Option ℚ) : Except String ℚ :=
  match marketCap with
  | some m => .ok m
  | none => .error "TypeError: marketCap is None"

/-- `ZScoreDataFetcher.fetch_all`, over the latest balance-sheet column,
the latest income-statement column and the optional market cap. -/
def ZScoreDataFetcher.fetch_all (bs inc : List (String × ℚ))
    (marketCap : Option ℚ) : Except String FinancialFacts := do
  let (ta, tl, wc, re) ← fetchBalanceSheet bs
  let (ebit, sales) ← fetchIncomeStatement inc
  let mc ← fetchMarketData marketCap
  let data : List (String × Option ℚ) :=
    [("working_capital", some wc), ("total_assets", some ta),
     ("retained_earnings", some re), ("ebit", some ebit),
     ("market_cap", some mc), ("total_liabilities", some tl),
     ("sales", some sales)]
  match validateData data REQUIRED_FIELDS with
  | .error e => .error e
  | .ok _ => .ok ⟨wc, ta, re, ebit, mc, tl, sales⟩

/-! ## calculators.py — MertonCalculator (on `ℝ`) -/

/-- Python `round(x, n)` on the real model of floats. -/
noncomputable def pyRoundR (ndigits : ℕ) (x : ℝ) : ℝ :=
  ((round (x * 10 ^ ndigits) : ℤ) : ℝ) / 10 ^ ndigits

/-- `math.erf`: the Gauss error function
`erf x = (2/√π) · ∫ t in 0..x, exp (-t²)`. -/
noncomputable def erf (x : ℝ) : ℝ :=
  2 / Real.sqrt Real.pi * ∫ t in (0:ℝ)..x, Real.exp (-t ^ 2)

/-- `MertonCalculator._normal_cdf`: `Φ(x) = (1 + erf(x/√2))/2`. -/
noncomputable def normal_cdf (x : ℝ) : ℝ :=
  (1 + erf (x / Real.sqrt 2)) / 2

/-- The dict produced by `MertonDataFetcher.fetch_all` (the
`risk_free_rate` entry is never read by the calculator). -/
structure MertonData where
  V_A : ℝ
  D : ℝ
  mu : ℝ
  sigma : ℝ
  T : ℝ

/-- The result dict of `MertonCalculator.calculate`. -/
structure MertonResult where
  V_A : ℝ
  D : ℝ
  mu : ℝ
  sigma : ℝ
  T : ℝ
  DD : ℝ
  PD : ℝ
  PD_pct : ℝ

/-- `MertonCalculator.calculate`. -/
noncomputable def mertonCalculate (data : MertonData) : Except String MertonResult :=
  if data.D ≤ 0 then .error "D (pasivos) debe ser mayor que 0."
  else if data.V_A ≤ 0 then .error "V_A (activos) debe ser mayor que 0."
  else if data.sigma ≤ 0 then .error "σ debe ser mayor que 0."
  else
    let DD := (Real.log (data.V_A / data.D) +
        (data.mu - data.sigma ^ 2 / 2) * data.T) / (data.sigma * Real.sqrt data.T)
    let PD := 1 - normal_cdf DD
    .ok ⟨pyRoundR 2 data.V_A, pyRoundR 2 data.D, pyRoundR 4 data.mu,
         pyRoundR 4 data.sigma, data.T, pyRoundR 4 DD, pyRoundR 6 PD,
         pyRoundR 4 (PD * 100)⟩

/-! ## risk_analyzer.py — orchestrator and batch -/

/-- The analytical content of the result dict built by `RiskAnalyzer.run`
(company metadata echoed from the external fetcher is not modelled). -/
structure AnalysisResult where
  ticker : String
  company_type : String
  model_version : String
  zscore_ratios : ZScoreResult
  zscore_decision : ZoneDecision
  merton_applicable : Bool
  merton_results : Option MertonResult
  merton_decision : Option ZoneDecision
  final_decision : FinalDecision

/-- `RiskAnalyzer.run` for one ticker.  The two external fetchers are the
run's inputs: `z_data` is the validated `FinancialFacts` record of
`ZScoreDataFetcher.fetch_all` and `industry` its industry text, while
`mertonFetch` stands for `MertonDataFetcher(...).fetch_all()` — consulted
only when Merton is applicable and able to fail like any fetch.  All the
in-repository stages (classifier, calculators, decisions, reconciler) are
the embedded definitions above, sequenced exactly as in the source. -/
noncomputable def RiskAnalyzer.run (ticker : String) (industry : List Char)
    (z_data : FinancialFacts) (mertonFetch : Except String MertonData) :
    Except String AnalysisResult := do
  -- PASO 2: clasificación
  let cls := classifyChars industry
  -- PASO 3: Z-Score
  let z_results ← zscoreCalculate z_data cls.model_version
  let z_dec := zscoreEvaluate z_results.z_score cls.model_version
  -- PASO 4/5: Merton (condicional)
  let merton_applicable := get_merton_applicability z_data.total_liabilities
  if merton_applicable then do
    let m_data ← mertonFetch
    let merton_results ← mertonCalculate m_data
    let merton_dec := mertonEvaluate merton_results.PD
    .ok ⟨ticker, cls.company_type, cls.model_version, z_results, z_dec,
         merton_applicable, some merton_results, some merton_dec,
         combine_decisions z_dec (some merton_dec)⟩
  else
    .ok ⟨ticker, cls.company_type, cls.model_version, z_results, z_dec,
         merton_applicable, none, none, combine_decisions z_dec none⟩

/-- One entry of the list `RiskAnalyzer.analyze_multiple` builds: either a
full result dict or the degenerate `{"ticker": t, "error": e}` record. -/
inductive BatchResult (α : Type) where
  | success (r : α)
  | failure (ticker : String) (msg : String)
deriving DecidableEq

/-- `RiskAnalyzer.analyze_multiple`: the sequential loop with its
per-ticker `try/except`, abstracted over the single-ticker analysis
`runOne` (in the source, `RiskAnalyzer(ticker).run()`). -/
def analyzeMultiple {α : Type} (runOne : String → Except String α)
    (tickers : List String) : List (BatchResult α) :=
  tickers.map fun t =>
    match runOne t with
    | .ok r => .success r
    | .error e => .failure t e

/-! ## Helper lemmas -/

theorem except_bind_ok {ε α β : Type} (x : Except ε α) (f : α → Except ε β) (b : β) :
    (x >>= f = Except.ok b) ↔ ∃ a, x = Except.ok a ∧ f a = Except.ok b := by
  cases x <;> simp [Bind.bind, Except.bind]

theorem validateData_fetch_ok (wc ta re ebit mc tl sales : ℚ) :
    validateData [("working_capital", some wc), ("total_assets", some ta),
      ("retained_earnings", some re), ("ebit", some ebit), ("market_cap", some mc),
      ("total_liabilities", some tl), ("sales", some sales)] REQUIRED_FIELDS =
      .ok () := rfl

theorem fetchBalanceSheet_ok_iff (bs : List (String × ℚ)) :
    (∃ t, fetchBalanceSheet bs = .ok t) ↔
      (bs.isEmpty = false ∧ (bs.lookup "Total Assets").isSome ∧
       (bs.lookup "Total Liabilities Net Minority Interest").isSome) := by
  unfold fetchBalanceSheet
  by_cases h0 : bs.isEmpty
  · simp [h0]
  · cases h1 : bs.lookup "Total Assets" <;>
      cases h2 : bs.lookup "Total Liabilities Net Minority Interest" <;>
      simp [h0, h1, h2]

theorem fetchIncomeStatement_ok_iff (inc : List (String × ℚ)) :
    (∃ p, fetchIncomeStatement inc = .ok p) ↔
      (inc.isEmpty = false ∧
       ((inc.lookup "EBIT").isSome ∨ (inc.lookup "Operating Income").isSome ∨
        (inc.lookup "Pretax Income").isSome) ∧
       ((inc.lookup "Total Revenue").isSome ∨
        (inc.lookup "Operating Revenue").isSome)) := by
  unfold fetchIncomeStatement
  by_cases h0 : inc.isEmpty
  · simp [h0]
  · cases hE : inc.lookup "EBIT" <;>
      cases hO : inc.lookup "Operating Income" <;>
      cases hP : inc.lookup "Pretax Income" <;>
      cases hT : inc.lookup "Total Revenue" <;>
      cases hR : inc.lookup "Operating Revenue" <;>
      simp [h0, hE, hO, hP, hT, hR]

theorem fetchBalanceSheet_defaults (bs : List (String × ℚ)) (ta tl wc re : ℚ)
    (h : fetchBalanceSheet bs = .ok (ta, tl, wc, re)) :
    (bs.lookup "Working Capital" = none →
      (bs.lookup "Current Assets" = none ∨ bs.lookup "Current Liabilities" = none) →
      wc = 0) ∧
    (bs.lookup "Retained Earnings" = none → re = 0) := by
  unfold fetchBalanceSheet at h
  by_cases h0 : bs.isEmpty <;>
    cases h1 : bs.lookup "Total Assets" <;>
    cases h2 : bs.lookup "Total Liabilities Net Minority Interest" <;>
    simp [h0, h1, h2] at h
  obtain ⟨hta, htl, hwc, hre⟩ := h
  constructor
  · intro hw hcc
    rcases hcc with hca | hcl
    · simp [hw, hca] at hwc
      exact hwc.symm
    · simp [hw, hcl] at hwc
      exact hwc.symm
  · intro hr
    simp [hr] at hre
    exact hre.symm

theorem fetch_all_ok_iff (bs inc : List (String × ℚ)) (mc : Option ℚ) :
    (∃ f, ZScoreDataFetcher.fetch_all bs inc mc = .ok f) ↔
      ((∃ t, fetchBalanceSheet bs = .ok t) ∧
       (∃ p, fetchIncomeStatement inc = .ok p) ∧ mc.isSome) := by
  unfold ZScoreDataFetcher.fetch_all
  rcases hbs : fetchBalanceSheet bs with e | ⟨ta, tl, wc, re⟩ <;>
    rcases his : fetchIncomeStatement inc with e2 | ⟨eb, sa⟩ <;>
    rcases mc with _ | m <;>
    simp [hbs, his, except_bind_ok, fetchMarketData, validateData_fetch_ok,
      Bind.bind, Except.bind]

theorem integrable_gauss :
    MeasureTheory.Integrable (fun t : ℝ => Real.exp (-t ^ 2)) := by
  have h := integrable_exp_neg_mul_sq (show (0:ℝ) < 1 by norm_num)
  simpa using h

theorem integral_gauss_nonneg {x : ℝ} (hx : 0 ≤ x) :
    0 ≤ ∫ t in (0:ℝ)..x, Real.exp (-t ^ 2) :=
  intervalIntegral.integral_nonneg hx fun _ _ => (Real.exp_pos _).le

theorem integral_gauss_le {x : ℝ} (hx : 0 ≤ x) :
    (∫ t in (0:ℝ)..x, Real.exp (-t ^ 2)) ≤ Real.sqrt Real.pi / 2 := by
  rw [intervalIntegral.integral_of_le hx]
  have hIoi : ∫ t in Set.Ioi (0:ℝ), Real.exp (-t ^ 2) = Real.sqrt Real.pi / 2 := by
    have h := integral_gaussian_Ioi 1
    simpa using h
  rw [← hIoi]
  apply MeasureTheory.setIntegral_mono_set integrable_gauss.integrableOn
  · filter_upwards with t
    exact (Real.exp_pos _).le
  · exact Set.Ioc_subset_Ioi_self.eventuallyLE

theorem erf_neg_eq (x : ℝ) : erf (-x) = -erf x := by
  unfold erf
  have h1 : (∫ t in (0:ℝ)..(-x), Real.exp (-t ^ 2)) =
      ∫ t in (0:ℝ)..(-x), Real.exp (-(-t) ^ 2) := by
    simp only [neg_sq]
  have h2 : (∫ t in (0:ℝ)..(-x), Real.exp (-(-t) ^ 2)) =
      ∫ t in (x:ℝ)..(0:ℝ), Real.exp (-t ^ 2) := by
    have h0 : (∫ t in (0:ℝ)..(-x), Real.exp (-(-t) ^ 2)) =
        ∫ t in (-(-x):ℝ)..(-(0:ℝ)), Real.exp (-t ^ 2) :=
      intervalIntegral.integral_comp_neg fun t : ℝ => Real.exp (-t ^ 2)
    simpa using h0
  rw [h1, h2, intervalIntegral.integral_symm]
  ring

theorem erf_nonneg_of_nonneg {x : ℝ} (hx : 0 ≤ x) : 0 ≤ erf x := by
  unfold erf
  apply mul_nonneg
  · positivity
  · exact integral_gauss_nonneg hx

theorem erf_le_one_of_nonneg {x : ℝ} (hx : 0 ≤ x) : erf x ≤ 1 := by
  unfold erf
  have hπ : 0 < Real.sqrt Real.pi := Real.sqrt_pos.mpr Real.pi_pos
  have hb := integral_gauss_le hx
  calc 2 / Real.sqrt Real.pi * ∫ t in (0:ℝ)..x, Real.exp (-t ^ 2)
      ≤ 2 / Real.sqrt Real.pi * (Real.sqrt Real.pi / 2) := by
        apply mul_le_mul_of_nonneg_left hb
        positivity
    _ = 1 := by field_simp

theorem erf_le_one (x : ℝ) : erf x ≤ 1 := by
  rcases le_or_lt 0 x with hx | hx
  · exact erf_le_one_of_nonneg hx
  · have h := erf_nonneg_of_nonneg (show 0 ≤ -x by linarith)
    have := erf_neg_eq x
    nlinarith

theorem neg_one_le_erf (x : ℝ) : -1 ≤ erf x := by
  rcases le_or_lt 0 x with hx | hx
  · have := erf_nonneg_of_nonneg hx
    linarith
  · have h := erf_le_one_of_nonneg (show 0 ≤ -x by linarith)
    have := erf_neg_eq x
    linarith

/-- `Φ` takes values in `[0, 1]`: the mathematical content behind the
claim that a computed probability of default is a probability. -/
theorem normal_cdf_mem (x : ℝ) : 0 ≤ normal_cdf x ∧ normal_cdf x ≤ 1 := by
  unfold normal_cdf
  have h1 := erf_le_one (x / Real.sqrt 2)
  have h2 := neg_one_le_erf (x / Real.sqrt 2)
  constructor <;> linarith

theorem zscoreCalculate_ok_tl_ne {d : FinancialFacts} {mv : String}
    {z : ZScoreResult} (h : zscoreCalculate d mv = .ok z) :
    d.total_liabilities ≠ 0 := by
  intro h0
  unfold zscoreCalculate ZScoreCalculator.init at h
  cases hc : COEFFICIENTS mv <;> simp [hc] at h
  unfold ZScoreCalculator.calcBody at h
  by_cases hta : d.total_assets = 0
  · simp [hta] at h
  · simp [hta, h0] at h

theorem zscore_init_Zdp :
    ZScoreCalculator.init "Z_double_prime" = .ok ⟨6.56, 3.26, 6.72, 1.05, 0⟩ := by
  unfold ZScoreCalculator.init COEFFICIENTS
  rw [if_neg (by decide : ¬("Z_double_prime" = "Z")),
    if_pos (rfl : "Z_double_prime" = "Z_double_prime")]
  norm_num

/-! ## Claim theorems -/

/-- C1: when the Merton decision is absent the reconciler returns the
Z-Score decision verbatim as the final decision; otherwise the final
decision is DENIED if either input decision is DENIED, APPROVED if both
are APPROVED, and APPROVED WITH WARNING in every remaining case. -/
theorem C1_reconciler_rule :
    (∀ z : ZoneDecision, (combine_decisions z none).decision = z.decision) ∧
    (∀ z m : ZoneDecision,
      ((z.decision = DENIED ∨ m.decision = DENIED) →
        (combine_decisions z (some m)).decision = DENIED) ∧
      ((z.decision = APPROVED ∧ m.decision = APPROVED) →
        (combine_decisions z (some m)).decision = APPROVED) ∧
      (¬(z.decision = DENIED ∨ m.decision = DENIED) →
        ¬(z.decision = APPROVED ∧ m.decision = APPROVED) →
        (combine_decisions z (some m)).decision = APPROVED_WARNING)) := by
  refine ⟨fun z => rfl, fun z m => ⟨fun h => ?_, fun h => ?_, fun h1 h2 => ?_⟩⟩
  · show (if _ then _ else _) = _
    rw [if_pos h]
  · show (if _ then _ else if _ then _ else _) = _
    rw [if_neg ?hne, if_pos h]
    rintro (hz | hm)
    · rw [h.1] at hz; exact absurd hz (by decide)
    · rw [h.2] at hm; exact absurd hm (by decide)
  · show (if _ then _ else if _ then _ else _) = _
    rw [if_neg h1, if_neg h2]

/-- C1 witness: the reconciler rule at concrete decision pairs. -/
theorem C1_reconciler_rule_witness :
    (combine_decisions ⟨"SAFE", "APPROVED"⟩
      (some ⟨"DISTRESS", "DENIED"⟩)).decision = DENIED ∧
    (combine_decisions ⟨"SAFE", "APPROVED"⟩
      (some ⟨"SAFE", "APPROVED"⟩)).decision = APPROVED ∧
    (combine_decisions ⟨"GREY ZONE", "APPROVED WITH WARNING"⟩
      (some ⟨"SAFE", "APPROVED"⟩)).decision = APPROVED_WARNING ∧
    (combine_decisions ⟨"SAFE", "APPROVED"⟩ none).decision = "APPROVED" :=
  ⟨(C1_reconciler_rule.2 _ _).1 (Or.inr rfl),
   (C1_reconciler_rule.2 _ _).2.1 ⟨rfl, rfl⟩,
   (C1_reconciler_rule.2 _ _).2.2 (by decide) (by decide),
   C1_reconciler_rule.1 _⟩

/-- C2: for facts with nonzero total assets and total liabilities the
Z-Score computation returns the five ratios (X5 forced to 0 for the
Z-double-prime variant), each rounded to 4 decimals, and the score is the
variant-specific weighted sum of the full-precision ratios rounded to 4
decimals. -/
theorem C2_zscore_formulas :
    ∀ d : FinancialFacts, d.total_assets ≠ 0 → d.total_liabilities ≠ 0 →
      zscoreCalculate d "Z" = .ok ⟨"Z",
        pyRound 4 (d.working_capital / d.total_assets),
        pyRound 4 (d.retained_earnings / d.total_assets),
        pyRound 4 (d.ebit / d.total_assets),
        pyRound 4 (d.market_cap / d.total_liabilities),
        pyRound 4 (d.sales / d.total_assets),
        pyRound 4 (1.2 * (d.working_capital / d.total_assets) +
                   1.4 * (d.retained_earnings / d.total_assets) +
                   3.3 * (d.ebit / d.total_assets) +
                   0.6 * (d.market_cap / d.total_liabilities) +
                   1.0 * (d.sales / d.total_assets))⟩ ∧
      zscoreCalculate d "Z_double_prime" = .ok ⟨"Z_double_prime",
        pyRound 4 (d.working_capital / d.total_assets),
        pyRound 4 (d.retained_earnings / d.total_assets),
        pyRound 4 (d.ebit / d.total_assets),
        pyRound 4 (d.market_cap / d.total_liabilities),
        0,
        pyRound 4 (6.56 * (d.working_capital / d.total_assets) +
                   3.26 * (d.retained_earnings / d.total_assets) +
                   6.72 * (d.ebit / d.total_assets) +
                   1.05 * (d.market_cap / d.total_liabilities))⟩ := by
  intro d hta htl
  constructor <;>
    simp only [zscoreCalculate, ZScoreCalculator.init, COEFFICIENTS,
      ZScoreCalculator.calcBody] <;>
    simp [hta, htl, ZScoreResult.mk.injEq, pyRound]

/-- C2 witness: the Z-variant formula at a concrete fact record. -/
theorem C2_zscore_formulas_witness :
    ((10:ℚ) ≠ 0) ∧ ((5:ℚ) ≠ 0) ∧
    zscoreCalculate ⟨1, 10, 2, 3, 4, 5, 6⟩ "Z" = .ok ⟨"Z",
      pyRound 4 ((1:ℚ) / 10), pyRound 4 ((2:ℚ) / 10), pyRound 4 ((3:ℚ) / 10),
      pyRound 4 ((4:ℚ) / 5), pyRound 4 ((6:ℚ) / 10),
      pyRound 4 (1.2 * ((1:ℚ) / 10) + 1.4 * ((2:ℚ) / 10) + 3.3 * ((3:ℚ) / 10) +
        0.6 * ((4:ℚ) / 5) + 1.0 * ((6:ℚ) / 10))⟩ :=
  ⟨by norm_num, by norm_num,
   (C2_zscore_formulas ⟨1, 10, 2, 3, 4, 5, 6⟩ (by norm_num) (by norm_num)).1⟩

/-- C3: the Z-Score calculation errors exactly when total assets or total
liabilities is zero, and the Merton calculation errors exactly when
D ≤ 0, V_A ≤ 0 or σ ≤ 0 — each with the message naming the violated
condition (in the exact-arithmetic model no NaN or defaulted value can be
produced: the computation either errors or returns the computed record). -/
theorem C3_degenerate_inputs :
    (∀ (d : FinancialFacts) (mv : String) (c : Coefficients),
      ((∃ e, ZScoreCalculator.calcBody d mv c = .error e) ↔
        (d.total_assets = 0 ∨ d.total_liabilities = 0)) ∧
      (d.total_assets = 0 →
        ZScoreCalculator.calcBody d mv c = .error "Total Assets es 0.") ∧
      (d.total_assets ≠ 0 → d.total_liabilities = 0 →
        ZScoreCalculator.calcBody d mv c = .error "Total Liabilities es 0.")) ∧
    (∀ m : MertonData,
      ((∃ e, mertonCalculate m = .error e) ↔
        (m.D ≤ 0 ∨ m.V_A ≤ 0 ∨ m.sigma ≤ 0)) ∧
      (m.D ≤ 0 → mertonCalculate m = .error "D (pasivos) debe ser mayor que 0.") ∧
      (¬m.D ≤ 0 → m.V_A ≤ 0 →
        mertonCalculate m = .error "V_A (activos) debe ser mayor que 0.") ∧
      (¬m.D ≤ 0 → ¬m.V_A ≤ 0 → m.sigma ≤ 0 →
        mertonCalculate m = .error "σ debe ser mayor que 0.")) := by
  constructor
  · intro d mv c
    refine ⟨?_, fun h => ?_, fun h1 h2 => ?_⟩
    · unfold ZScoreCalculator.calcBody
      by_cases hta : d.total_assets = 0
      · simp [hta]
      · by_cases htl : d.total_liabilities = 0 <;> simp [hta, htl]
    · unfold ZScoreCalculator.calcBody
      rw [if_pos h]
    · unfold ZScoreCalculator.calcBody
      rw [if_neg h1, if_pos h2]
  · intro m
    refine ⟨?_, fun h => ?_, fun h1 h2 => ?_, fun h1 h2 h3 => ?_⟩
    · unfold mertonCalculate
      by_cases h1 : m.D ≤ 0
      · simp [h1]
      · by_cases h2 : m.V_A ≤ 0
        · simp [h1, h2]
        · by_cases h3 : m.sigma ≤ 0 <;> simp [h1, h2, h3]
    · unfold mertonCalculate
      rw [if_pos h]
    · unfold mertonCalculate
      rw [if_neg h1, if_pos h2]
    · unfold mertonCalculate
      rw [if_neg h1, if_neg h2, if_pos h3]

/-- C3 witness: each degenerate condition produces its specific error at a
concrete input. -/
theorem C3_degenerate_inputs_witness :
    ZScoreCalculator.calcBody ⟨1, 0, 2, 3, 4, 5, 6⟩ "Z" ⟨1.2, 1.4, 3.3, 0.6, 1.0⟩ =
      .error "Total Assets es 0." ∧
    ZScoreCalculator.calcBody ⟨1, 10, 2, 3, 4, 0, 6⟩ "Z" ⟨1.2, 1.4, 3.3, 0.6, 1.0⟩ =
      .error "Total Liabilities es 0." ∧
    mertonCalculate ⟨100, -1, 0, 1, 1⟩ = .error "D (pasivos) debe ser mayor que 0." ∧
    mertonCalculate ⟨-100, 1, 0, 1, 1⟩ =
      .error "V_A (activos) debe ser mayor que 0." ∧
    mertonCalculate ⟨100, 1, 0, -1, 1⟩ = .error "σ debe ser mayor que 0." :=
  ⟨(C3_degenerate_inputs.1 _ _ _).2.1 rfl,
   (C3_degenerate_inputs.1 _ _ _).2.2 (show (10:ℚ) ≠ 0 by norm_num) rfl,
   (C3_degenerate_inputs.2 _).2.1 (show (-1:ℝ) ≤ 0 by norm_num),
   (C3_degenerate_inputs.2 _).2.2.1 (show ¬(1:ℝ) ≤ 0 by norm_num)
     (show (-100:ℝ) ≤ 0 by norm_num),
   (C3_degenerate_inputs.2 _).2.2.2 (show ¬(1:ℝ) ≤ 0 by norm_num)
     (show ¬(100:ℝ) ≤ 0 by norm_num) (show (-1:ℝ) ≤ 0 by norm_num)⟩

/-- C4: with positive D, V_A and σ the Merton computation returns
DD = (ln(V_A/D) + (μ − σ²/2)·T)/(σ·√T) and PD = 1 − Φ(DD) with
Φ(x) = (1 + erf(x/√2))/2, PD lies in [0,1], and the output rounds V_A and
D to 2 decimals, μ, σ and DD to 4 decimals, PD to 6 decimals and the PD
percentage to 4 decimals. -/
theorem C4_merton_formula :
    ∀ m : MertonData, 0 < m.D → 0 < m.V_A → 0 < m.sigma →
      ∃ DD PD : ℝ,
        DD = (Real.log (m.V_A / m.D) + (m.mu - m.sigma ^ 2 / 2) * m.T) /
          (m.sigma * Real.sqrt m.T) ∧
        PD = 1 - normal_cdf DD ∧
        normal_cdf DD = (1 + erf (DD / Real.sqrt 2)) / 2 ∧
        0 ≤ PD ∧ PD ≤ 1 ∧
        mertonCalculate m = .ok
          ⟨pyRoundR 2 m.V_A, pyRoundR 2 m.D, pyRoundR 4 m.mu, pyRoundR 4 m.sigma,
           m.T, pyRoundR 4 DD, pyRoundR 6 PD, pyRoundR 4 (PD * 100)⟩ := by
  intro m hD hV hs
  refine ⟨_, _, rfl, rfl, rfl, ?_, ?_, ?_⟩
  · have := (normal_cdf_mem ((Real.log (m.V_A / m.D) +
      (m.mu - m.sigma ^ 2 / 2) * m.T) / (m.sigma * Real.sqrt m.T))).2
    linarith
  · have := (normal_cdf_mem ((Real.log (m.V_A / m.D) +
      (m.mu - m.sigma ^ 2 / 2) * m.T) / (m.sigma * Real.sqrt m.T))).1
    linarith
  · unfold mertonCalculate
    rw [if_neg (not_le.mpr hD), if_neg (not_le.mpr hV), if_neg (not_le.mpr hs)]

/-- C4 witness: the Merton contract at V_A = 100, D = 50, μ = 0, σ = 1,
T = 1. -/
theorem C4_merton_formula_witness :
    (0:ℝ) < 50 ∧ (0:ℝ) < 100 ∧ (0:ℝ) < 1 ∧
    (∃ DD PD : ℝ,
      DD = (Real.log ((100:ℝ) / 50) + ((0:ℝ) - 1 ^ 2 / 2) * 1) / (1 * Real.sqrt 1) ∧
      PD = 1 - normal_cdf DD ∧
      normal_cdf DD = (1 + erf (DD / Real.sqrt 2)) / 2 ∧
      0 ≤ PD ∧ PD ≤ 1 ∧
      mertonCalculate ⟨100, 50, 0, 1, 1⟩ = .ok
        ⟨pyRoundR 2 100, pyRoundR 2 50, pyRoundR 4 0, pyRoundR 4 1, 1,
         pyRoundR 4 DD, pyRoundR 6 PD, pyRoundR 4 (PD * 100)⟩) :=
  ⟨by norm_num, by norm_num, by norm_num,
   C4_merton_formula ⟨100, 50, 0, 1, 1⟩ (by norm_num) (by norm_num) (by norm_num)⟩

/-- C5: the Z-Score decision zones are strict-threshold based per variant
(score exactly at a threshold falls in the grey zone), the Merton decision
zones use PD < 0.02 and PD > 0.05, and each zone maps deterministically to
its decision. -/
theorem C5_decision_thresholds :
    (∀ s : ℚ,
      (zscoreEvaluate s "Z" = ⟨ZONE_SAFE, APPROVED⟩ ↔ s > 2.99) ∧
      (zscoreEvaluate s "Z" = ⟨ZONE_DISTRESS, DENIED⟩ ↔ s < 1.81) ∧
      (zscoreEvaluate s "Z" = ⟨ZONE_GREY, APPROVED_WARNING⟩ ↔
        1.81 ≤ s ∧ s ≤ 2.99)) ∧
    (∀ s : ℚ,
      (zscoreEvaluate s "Z_double_prime" = ⟨ZONE_SAFE, APPROVED⟩ ↔ s > 2.60) ∧
      (zscoreEvaluate s "Z_double_prime" = ⟨ZONE_DISTRESS, DENIED⟩ ↔ s < 1.10) ∧
      (zscoreEvaluate s "Z_double_prime" = ⟨ZONE_GREY, APPROVED_WARNING⟩ ↔
        1.10 ≤ s ∧ s ≤ 2.60)) ∧
    (∀ p : ℝ,
      (mertonEvaluate p = ⟨ZONE_SAFE, APPROVED⟩ ↔ p < 0.02) ∧
      (mertonEvaluate p = ⟨ZONE_DISTRESS, DENIED⟩ ↔ p > 0.05) ∧
      (mertonEvaluate p = ⟨ZONE_GREY, APPROVED_WARNING⟩ ↔ 0.02 ≤ p ∧ p ≤ 0.05)) ∧
    zscoreEvaluate 2.99 "Z" = ⟨ZONE_GREY, APPROVED_WARNING⟩ := by
  refine ⟨fun s => ⟨?_, ?_, ?_⟩, fun s => ⟨?_, ?_, ?_⟩, fun p => ⟨?_, ?_, ?_⟩, ?_⟩ <;>
    simp only [zscoreEvaluate, zscoreThresholds, mertonEvaluate,
      PD_SAFE, PD_DISTRESS] <;>
    norm_num <;>
    split_ifs <;>
    simp_all [ZoneDecision.mk.injEq, ZONE_SAFE, ZONE_GREY, ZONE_DISTRESS,
      APPROVED, APPROVED_WARNING, DENIED] <;>
    linarith

/-- C6: classification works on the lower-cased industry text; an empty
industry defaults to non-manufacturing with Z-double-prime, a financial
keyword wins over a manufacturing keyword (checked first), a manufacturing
keyword yields the Z variant, anything else is non-manufacturing; the
mixed string "auto insurance" classifies as financial. -/
theorem C6_classifier :
    (∀ ind : List Char,
      (ind = [] → classifyChars ind = ⟨"non_manufacturing", "Z_double_prime"⟩) ∧
      (ind ≠ [] → containsKw FINANCIAL_KEYWORDS (pyLower ind) = true →
        classifyChars ind = ⟨"financial", "Z_double_prime"⟩) ∧
      (ind ≠ [] → containsKw FINANCIAL_KEYWORDS (pyLower ind) = false →
        containsKw MANUFACTURING_KEYWORDS (pyLower ind) = true →
        classifyChars ind = ⟨"manufacturing", "Z"⟩) ∧
      (ind ≠ [] → containsKw FINANCIAL_KEYWORDS (pyLower ind) = false →
        containsKw MANUFACTURING_KEYWORDS (pyLower ind) = false →
        classifyChars ind = ⟨"non_manufacturing", "Z_double_prime"⟩)) ∧
    classify "auto insurance" = ⟨"financial", "Z_double_prime"⟩ := by
  refine ⟨fun ind => ⟨fun he => ?_, fun hne hf => ?_, fun hne hf hm => ?_,
    fun hne hf hm => ?_⟩, by decide⟩
  · subst he; rfl
  all_goals
    obtain ⟨c, cs, rfl⟩ : ∃ c cs, ind = c :: cs := by
      cases ind with
      | nil => exact absurd rfl hne
      | cons c cs => exact ⟨c, cs, rfl⟩
  all_goals simp [classifyChars, pyLower] at hf ⊢
  all_goals simp_all [pyLower]

/-- C6 witness: the classifier cases at concrete industry strings. -/
theorem C6_classifier_witness :
    classifyChars [] = ⟨"non_manufacturing", "Z_double_prime"⟩ ∧
    classifyChars "fund".toList = ⟨"financial", "Z_double_prime"⟩ ∧
    classifyChars "steel".toList = ⟨"manufacturing", "Z"⟩ ∧
    classifyChars "retail".toList = ⟨"non_manufacturing", "Z_double_prime"⟩ :=
  ⟨(C6_classifier.1 []).1 rfl,
   (C6_classifier.1 _).2.1 (by decide) (by decide),
   (C6_classifier.1 _).2.2.1 (by decide) (by decide) (by decide),
   (C6_classifier.1 _).2.2.2 (by decide) (by decide) (by decide)⟩

/-- C7 counterexample: the Z-Score decision stage does not reject the
unknown variant "Z_prime": evaluation proceeds normally, silently falling
back to the Z-double-prime thresholds, instead of failing at construction
time as the claim states. -/
theorem C7_counterexample :
    ZScoreCalculator.init "Z_prime" = .error "Versión inválida: 'Z_prime'." ∧
    zscoreEvaluate 2 "Z_prime" = ⟨ZONE_GREY, APPROVED_WARNING⟩ ∧
    zscoreThresholds "Z_prime" = zscoreThresholds "Z_double_prime" := by
  refine ⟨rfl, ?_, rfl⟩
  have ht : zscoreThresholds "Z_prime" = (13 / 5, 11 / 10) := by
    norm_num [zscoreThresholds]
    decide
  norm_num [zscoreEvaluate, ht, ZONE_GREY, APPROVED_WARNING]

/-- C7 amended: an unrecognized model variant is rejected fatally at
construction time by the Z-Score calculator (so its computation also
fails), while the Z-Score decision stage performs no validation and
evaluates the variant with the Z-double-prime threshold fallback. -/
theorem C7_amended :
    ∀ mv : String, mv ≠ "Z" → mv ≠ "Z_double_prime" →
      (∃ e, ZScoreCalculator.init mv = .error e) ∧
      (∀ d, ∃ e, zscoreCalculate d mv = .error e) ∧
      (∀ s : ℚ, zscoreEvaluate s mv = zscoreEvaluate s "Z_double_prime") := by
  intro mv h1 h2
  have hc : COEFFICIENTS mv = none := by
    unfold COEFFICIENTS
    rw [if_neg h1, if_neg h2]
  have hi : ZScoreCalculator.init mv =
      .error ("Versión inválida: '" ++ mv ++ "'.") := by
    unfold ZScoreCalculator.init
    rw [hc]
  refine ⟨⟨_, hi⟩, fun d => ?_, fun s => ?_⟩
  · have hz : zscoreCalculate d mv =
        .error ("Versión inválida: '" ++ mv ++ "'.") := by
      unfold zscoreCalculate
      rw [hi]
    exact ⟨_, hz⟩
  · unfold zscoreEvaluate zscoreThresholds
    rw [if_neg h1, if_neg h2]
    simp

/-- C7 witness: the amended behaviour at the unknown variant "Z_prime". -/
theorem C7_amended_witness :
    (∃ e, ZScoreCalculator.init "Z_prime" = Except.error e) ∧
    zscoreEvaluate 2 "Z_prime" = zscoreEvaluate 2 "Z_double_prime" :=
  ⟨(C7_amended "Z_prime" (by decide) (by decide)).1,
   (C7_amended "Z_prime" (by decide) (by decide)).2.2 2⟩

/-- C8 counterexample: a fetch whose balance sheet lacks Working Capital,
Current Assets/Liabilities and Retained Earnings succeeds anyway, handing
the core a record with those two fields silently set to 0 — the fetcher
does not require all seven fields as the claim states. -/
theorem C8_counterexample :
    ZScoreDataFetcher.fetch_all
      [("Total Assets", 100), ("Total Liabilities Net Minority Interest", 50)]
      [("EBIT", 10), ("Total Revenue", 20)] (some 30) =
      .ok ⟨0, 100, 0, 10, 30, 50, 20⟩ := rfl

/-- C8 amended: only the five fields total_assets, ebit, market_cap,
total_liabilities and sales are required — fetch_all succeeds exactly when
the balance sheet provides Total Assets and Total Liabilities, the income
statement provides an EBIT substitute and a revenue field, and market cap
is present; a missing working capital (with no Current Assets/Liabilities
approximation) and a missing retained earnings are replaced by 0 rather
than failing. -/
theorem C8_amended :
    REQUIRED_FIELDS =
      ["total_assets", "ebit", "market_cap", "total_liabilities", "sales"] ∧
    (∀ (bs inc : List (String × ℚ)) (mc : Option ℚ),
      ((∃ f, ZScoreDataFetcher.fetch_all bs inc mc = .ok f) ↔
        (bs.isEmpty = false ∧ (bs.lookup "Total Assets").isSome ∧
         (bs.lookup "Total Liabilities Net Minority Interest").isSome ∧
         inc.isEmpty = false ∧
         ((inc.lookup "EBIT").isSome ∨ (inc.lookup "Operating Income").isSome ∨
          (inc.lookup "Pretax Income").isSome) ∧
         ((inc.lookup "Total Revenue").isSome ∨
          (inc.lookup "Operating Revenue").isSome) ∧
         mc.isSome)) ∧
      (∀ f, ZScoreDataFetcher.fetch_all bs inc mc = .ok f →
        (bs.lookup "Working Capital" = none →
          (bs.lookup "Current Assets" = none ∨
           bs.lookup "Current Liabilities" = none) →
          f.working_capital = 0) ∧
        (bs.lookup "Retained Earnings" = none → f.retained_earnings = 0))) := by
  refine ⟨rfl, fun bs inc mc => ⟨?_, fun f hf => ?_⟩⟩
  · rw [fetch_all_ok_iff, fetchBalanceSheet_ok_iff, fetchIncomeStatement_ok_iff]
    tauto
  · unfold ZScoreDataFetcher.fetch_all at hf
    rcases hbs : fetchBalanceSheet bs with e | ⟨ta, tl, wc, re⟩ <;> rw [hbs] at hf
    · simp [Bind.bind, Except.bind] at hf
    rcases his : fetchIncomeStatement inc with e2 | ⟨eb, sa⟩ <;> rw [his] at hf
    · simp [Bind.bind, Except.bind] at hf
    rcases mc with _ | m
    · simp [Bind.bind, Except.bind, fetchMarketData] at hf
    simp [Bind.bind, Except.bind, fetchMarketData, validateData_fetch_ok] at hf
    have hd := fetchBalanceSheet_defaults bs ta tl wc re hbs
    rw [← hf]
    exact hd

/-- C8 witness: the amended defaulting behaviour at the concrete fetch of
the counterexample. -/
theorem C8_amended_witness :
    ZScoreDataFetcher.fetch_all
      [("Total Assets", 100), ("Total Liabilities Net Minority Interest", 50)]
      [("EBIT", 10), ("Total Revenue", 20)] (some 30) =
      .ok ⟨0, 100, 0, 10, 30, 50, 20⟩ ∧
    (⟨0, 100, 0, 10, 30, 50, 20⟩ : FinancialFacts).working_capital = 0 ∧
    (⟨0, 100, 0, 10, 30, 50, 20⟩ : FinancialFacts).retained_earnings = 0 := by
  have h : ZScoreDataFetcher.fetch_all
      [("Total Assets", 100), ("Total Liabilities Net Minority Interest", 50)]
      [("EBIT", 10), ("Total Revenue", 20)] (some 30) =
      .ok ⟨0, 100, 0, 10, 30, 50, 20⟩ := rfl
  have hd := (C8_amended.2
    [("Total Assets", 100), ("Total Liabilities Net Minority Interest", 50)]
    [("EBIT", 10), ("Total Revenue", 20)] (some 30)).2 _ h
  exact ⟨h, hd.1 rfl (Or.inl rfl), hd.2 rfl⟩

/-- C9: batch analysis returns one entry per ticker in input order; a
failing ticker becomes the error record {ticker, message} and each entry
depends only on that ticker's own analysis. -/
theorem C9_batch_isolation :
    ∀ {α : Type} (runOne : String → Except String α) (tickers : List String),
      (analyzeMultiple runOne tickers).length = tickers.length ∧
      ∀ i : ℕ, (analyzeMultiple runOne tickers)[i]? =
        (tickers[i]?).map fun t =>
          match runOne t with
          | .ok r => BatchResult.success r
          | .error e => BatchResult.failure t e := by
  intro α f ts
  exact ⟨by simp [analyzeMultiple],
    fun i => by simp only [analyzeMultiple, List.getElem?_map]; try rfl⟩

/-- C10: a completed single-ticker run that skipped Merton implies the
total liabilities were strictly negative — the Z-Score stage (which runs
first) rules out zero, and the applicability test rules out positive. -/
theorem C10_merton_skip :
    ∀ (ticker : String) (industry : List Char) (z_data : FinancialFacts)
      (mertonFetch : Except String MertonData) (r : AnalysisResult),
      RiskAnalyzer.run ticker industry z_data mertonFetch = .ok r →
      r.merton_applicable = false →
      z_data.total_liabilities < 0 := by
  intro tk ind d mf r hrun happ
  simp only [RiskAnalyzer.run] at hrun
  rcases hz : zscoreCalculate d (classifyChars ind).model_version with e | zres <;>
    rw [hz] at hrun
  · simp [Bind.bind, Except.bind] at hrun
  have htl0 := zscoreCalculate_ok_tl_ne hz
  by_cases htl : d.total_liabilities ≤ 0
  · exact lt_of_le_of_ne htl htl0
  · exfalso
    have hap : get_merton_applicability d.total_liabilities = true := by
      unfold get_merton_applicability
      rw [if_neg htl]
    simp only [Bind.bind, Except.bind, hap] at hrun
    rcases mf with e2 | mdata
    · simp at hrun
    rcases hm : mertonCalculate mdata with e3 | mres <;> simp [hm] at hrun
    rw [← hrun] at happ
    simp at happ

/-- C10 witness: a run with total liabilities −5 completes with Merton
skipped, and the theorem yields the negativity. -/
theorem C10_merton_skip_witness :
    RiskAnalyzer.run "T" [] ⟨0, 10, 0, 0, 5, -5, 0⟩ (Except.error "sin datos") =
      .ok ⟨"T", "non_manufacturing", "Z_double_prime",
           ⟨"Z_double_prime", 0, 0, 0, -1, 0, -1.05⟩,
           ⟨"DISTRESS", "DENIED"⟩, false, none, none,
           ⟨"DENIED", "Z-Score únicamente (Merton no aplicable)"⟩⟩ ∧
    (⟨0, 10, 0, 0, 5, -5, 0⟩ : FinancialFacts).total_liabilities < 0 := by
  have hzc : zscoreCalculate ⟨0, 10, 0, 0, 5, -5, 0⟩ "Z_double_prime" =
      .ok ⟨"Z_double_prime", 0, 0, 0, -1, 0, -1.05⟩ := by
    norm_num [zscoreCalculate, zscore_init_Zdp, ZScoreCalculator.calcBody,
      pyRound, round_eq, Int.floor_eq_iff]
  have hcl : classifyChars [] = ⟨"non_manufacturing", "Z_double_prime"⟩ := by
    decide
  have ht : zscoreThresholds "Z_double_prime" = (13 / 5, 11 / 10) := by
    norm_num [zscoreThresholds]
    decide
  have hdec : zscoreEvaluate (-1.05) "Z_double_prime" = ⟨"DISTRESS", "DENIED"⟩ := by
    norm_num [zscoreEvaluate, ht, ZONE_DISTRESS, DENIED]
  have hap : get_merton_applicability (-5) = false := by
    norm_num [get_merton_applicability]
  have hrun : RiskAnalyzer.run "T" [] ⟨0, 10, 0, 0, 5, -5, 0⟩
      (Except.error "sin datos") =
      .ok ⟨"T", "non_manufacturing", "Z_double_prime",
           ⟨"Z_double_prime", 0, 0, 0, -1, 0, -1.05⟩,
           ⟨"DISTRESS", "DENIED"⟩, false, none, none,
           ⟨"DENIED", "Z-Score únicamente (Merton no aplicable)"⟩⟩ := by
    simp only [RiskAnalyzer.run, hcl, hzc, hdec, hap, Bind.bind, Except.bind]
    norm_num [combine_decisions, DENIED]
  exact ⟨hrun, C10_merton_skip "T" [] _ (Except.error "sin datos") _ hrun rfl⟩

end StockMarket
